import Mathlib

set_option maxRecDepth 16384

/-
Verification development for the `rsync.py` wrapper script.

The script is a thin orchestration layer around the external `rsync` tool.
Its pure, text-level logic is embedded here over `List Char` (Python `str`
values) and `List Nat` (Python `bytes` values).  Each definition below is a
direct translation of the corresponding Python function or inline code of
`src/rsync.py`; line numbers in the doc comments refer to that file.
-/

/-- Prefix test on character lists: `leadsWith pre l` models Python
`l.startswith(pre)`. -/
def leadsWith : List Char → List Char → Bool
  | [], _ => true
  | _ :: _, [] => false
  | a :: pre, b :: l => a == b && leadsWith pre l

/-- Substring test: `hasSub needle l` models Python `needle in l`. -/
def hasSub (needle : List Char) : List Char → Bool
  | [] => needle.isEmpty
  | c :: t => leadsWith needle (c :: t) || hasSub needle t

/-- Python `s.rstrip('/')`: remove every trailing `'/'` character. -/
def pyRstripSlash (s : List Char) : List Char :=
  (s.reverse.dropWhile (fun c => c == '/')).reverse

/-- Python `s.endswith('/')`. -/
def endsWithSlash (s : List Char) : Bool :=
  s.getLast? == some '/'

/-- Python `os.path.basename(s)` on POSIX: the part after the last `'/'`. -/
def pyBasename (s : List Char) : List Char :=
  (s.reverse.takeWhile (fun c => c != '/')).reverse

/-- Python `os.path.join(a, b)` on POSIX, for two components: an absolute
second component replaces the first; otherwise a separator is inserted
unless the first component is empty or already ends with one. -/
def pyJoin (a b : List Char) : List Char :=
  if b.head? == some '/' then b
  else if a.isEmpty || a.getLast? == some '/' then a ++ b
  else a ++ '/' :: b

/-- Python `line.split(' ', 1)`: `none` when the line has no space, otherwise
the part before the first space and the remainder after it. -/
def splitSp : List Char → Option (List Char × List Char)
  | [] => none
  | c :: t => if c == ' ' then some ([], t) else (splitSp t).map (fun p => (c :: p.1, p.2))

/-
`get_exclude_args` (src/rsync.py lines 95-134).  The filesystem is
abstracted as a predicate `isFile` (Python `os.path.isfile`); the script
directory and the source path are the function's other inputs.
-/

/-- The four candidate ignore-file paths of `get_exclude_args`, in the order
the loop checks them (src/rsync.py lines 111-116):  global `.rsyncignore`,
global `.gitignore` (both beside the script), then local `.rsyncignore`,
local `.gitignore` (both in `source_path.rstrip('/')`). -/
def candidatePaths (scriptDir sourcePath : List Char) : List (List Char) :=
  [ pyJoin scriptDir (".rsyncignore".data),
    pyJoin scriptDir (".gitignore".data),
    pyJoin (pyRstripSlash sourcePath) (".rsyncignore".data),
    pyJoin (pyRstripSlash sourcePath) (".gitignore".data) ]

/-- The hardcoded default exclude set (src/rsync.py lines 129-134), used only
when no ignore file is found at any candidate location. -/
def defaultExcludes : List (List Char) :=
  [ ("--exclude=Photos Library.photoslibrary".data),
    ("--exclude=.DS_Store".data),
    ("--exclude=.git".data),
    ("--exclude=node_modules".data) ]

/-- The loop body of `get_exclude_args` (lines 119-123): for every candidate
path that is a file, extend the argument list with
`["--exclude-from", path]`. -/
def collectExcludes (isFile : List Char → Bool) : List (List Char) → List (List Char)
  | [] => []
  | p :: rest =>
      (if isFile p then [("--exclude-from".data), p] else []) ++ collectExcludes isFile rest

/-- `get_exclude_args(source_path)` (lines 95-134): the collected
`--exclude-from` pairs when any candidate ignore file exists (`found_any`),
otherwise the hardcoded default exclude set. -/
def get_exclude_args (isFile : List Char → Bool) (scriptDir sourcePath : List Char) :
    List (List Char) :=
  if (candidatePaths scriptDir sourcePath).any isFile then
    collectExcludes isFile (candidatePaths scriptDir sourcePath)
  else defaultExcludes

/-
The transfer-loop line classifier (`run_sync`, src/rsync.py lines 207-228).
The loop strips each line first and skips empty results; the classifier
below takes the stripped line.
-/

/-- Categories a non-empty stripped line can fall into in the `run_sync`
read loop: a progress redraw, a collected error, a skipped
`sending incremental` header, or a filename update. -/
inductive TClass
  | progress
  | error
  | header
  | filename
deriving DecidableEq, Repr

/-- Line 218: `"%" in line and "xfr#" in line`. -/
def isProgressCond (l : List Char) : Bool :=
  hasSub ("%".data) l && hasSub ("xfr#".data) l

/-- Line 222: `line.startswith("rsync:") or line.startswith("rsync error:")
or "No space left" in line`. -/
def isErrorCond (l : List Char) : Bool :=
  leadsWith ("rsync:".data) l || leadsWith ("rsync error:".data) l ||
    hasSub ("No space left".data) l

/-- Line 227: `line.startswith("sending incremental")`. -/
def isHeaderCond (l : List Char) : Bool :=
  leadsWith ("sending incremental".data) l

/-- The `if/elif` chain of the `run_sync` loop (lines 218-228): progress
lines first, then error lines, then the skipped header, and everything else
becomes the current filename. -/
def transferClassify (l : List Char) : TClass :=
  if isProgressCond l then TClass.progress
  else if isErrorCond l then TClass.error
  else if isHeaderCond l then TClass.header
  else TClass.filename

/-
The audit-loop line classifier (`run_audit`, src/rsync.py lines 316-330).
-/

/-- Line 324: `line.startswith('*deleting')`. -/
def isDeletingCond (l : List Char) : Bool :=
  leadsWith ("*deleting".data) l

/-- Line 327 applied to `parts[0]`: `code.startswith('>f') and
'+++++++++' in code`. -/
def isCreationCode (code : List Char) : Bool :=
  leadsWith (">f".data) code && hasSub ("+++++++++".data) code

/-- Fuel-indexed model of Python `l.replace('*deleting   ', '')` (line 326):
every occurrence of the 12-character needle is removed, scanning left to
right.  The fuel is instantiated with the length of the list, which the
scan never exhausts. -/
def stripDeletingF : Nat → List Char → List Char
  | _, [] => []
  | 0, l => l
  | fuel + 1, c :: t =>
      if leadsWith ("*deleting   ".data) (c :: t) then stripDeletingF fuel ((c :: t).drop 12)
      else c :: stripDeletingF fuel t

/-- Python `line.replace('*deleting   ', '')` as used on line 326. -/
def stripDeleting (l : List Char) : List Char :=
  stripDeletingF l.length l

/-- One iteration of the audit parsing loop (lines 316-330) as a pure
classify-and-extract step: `none` when the line is empty or has no space
(`continue`), `Sum.inr` with the stripped name for a `*deleting` line
(an extra file), `Sum.inl` with `parts[1]` for a fresh-transfer
`>f+++++++++` code (a missing file), `none` otherwise. -/
def auditLineStep (l : List Char) : Option (List Char ⊕ List Char) :=
  match splitSp l with
  | none => none
  | some (code, fname) =>
      if isDeletingCond l then some (Sum.inr (stripDeleting l))
      else if isCreationCode code then some (Sum.inl fname)
      else none

/-- Audit categories for a line: appended to `missing`, appended to
`extras`, or ignored. -/
inductive AClass
  | missing
  | extra
  | ignored
deriving DecidableEq, Repr

/-- The category the audit loop assigns to a line. -/
def auditClassify (l : List Char) : AClass :=
  match auditLineStep l with
  | some (Sum.inl _) => AClass.missing
  | some (Sum.inr _) => AClass.extra
  | none => AClass.ignored

/-- The whole audit parsing loop (lines 313-330): the `missing` and
`extras` lists accumulated over the output lines, in input order. -/
def auditParse : List (List Char) → List (List Char) × List (List Char)
  | [] => ([], [])
  | l :: rest =>
      let r := auditParse rest
      match auditLineStep l with
      | some (Sum.inl f) => (f :: r.1, r.2)
      | some (Sum.inr f) => (r.1, f :: r.2)
      | none => r

/-- The list-truncation of the audit report (lines 344-347 and 353-356):
the first 15 entries are shown, and when the list is longer than 15 the
report carries the count `len - 15` for the trailing `... and N more.`
line. -/
def truncate15 (l : List (List Char)) : List (List Char) × Option Nat :=
  (l.take 15, if 15 < l.length then some (l.length - 15) else none)

/-- The literal suffix line printed for a truncated list (line 347):
`f"    ... and {n} more."`. -/
def renderMoreLine (n : Nat) : List Char :=
  ("    ... and " ++ toString n ++ " more.").data

/-- The audit's terminal outcome (lines 333-359): either the perfect-match
confirmation, or a report carrying the two truncated lists and the two
total counts. -/
inductive AuditOutcome
  | perfectMatch
  | report : List (List Char) × Option Nat → List (List Char) × Option Nat →
      Nat → Nat → AuditOutcome
deriving DecidableEq

/-- The audit's reporting decision (lines 333-359): perfect match exactly
when both lists are empty, otherwise the truncated report. -/
def auditOutcome (lines : List (List Char)) : AuditOutcome :=
  let r := auditParse lines
  if r.1.length = 0 ∧ r.2.length = 0 then AuditOutcome.perfectMatch
  else AuditOutcome.report (truncate15 r.1) (truncate15 r.2) r.1.length r.2.length

/-
Comparison roots of `run_audit` (src/rsync.py lines 268-281).
-/

/-- Line 273: `src_clean = source.rstrip('/') + '/'`. -/
def auditSrcClean (source : List Char) : List Char :=
  pyRstripSlash source ++ ['/']

/-- Lines 275-281: when the source has no trailing slash the tool copies the
folder itself into the destination, so the comparison root is
`os.path.join(dest, basename(source)).rstrip('/') + '/'`; otherwise it is
`dest.rstrip('/') + '/'`. -/
def auditDestClean (source dest : List Char) : List Char :=
  if endsWithSlash source = false then
    pyRstripSlash (pyJoin dest (pyBasename source)) ++ ['/']
  else pyRstripSlash dest ++ ['/']

/-
The `__main__` block (src/rsync.py lines 362-376) and process exit status.
-/

/-- `len(sys.argv) < 3` (line 363): the usage message is printed exactly
when fewer than two positional arguments are given. -/
def mainPrintsUsage (argv : List String) : Bool :=
  argv.length < 3

/-- The process exit status as a function of `sys.argv` and the external
tool's exit code: `sys.exit(1)` on line 365 when fewer than two positional
arguments are given; otherwise `run_sync` runs to completion without ever
calling `sys.exit` (it only prints the tool's return code in the summary,
lines 234-260), so the interpreter exits with status 0. -/
def mainExitStatus (argv : List String) (toolExit : Int) : Int :=
  if argv.length < 3 then 1 else 0

/-
Byte decoding of the audit subprocess output (src/rsync.py lines 300-305):
`proc = Popen(cmd, stdout=PIPE, stderr=PIPE, text=False)`,
`out_bytes, _ = proc.communicate()`,
`out = out_bytes.decode('utf-8', errors='replace')`.
The decoder below models CPython's UTF-8 decoding (a byte is a `Nat`
below 256): `utf8Step` decodes one scalar value, rejecting stray
continuation bytes, overlong forms, surrogates and out-of-range leads, and
reports how many continuation bytes it consumed.  The replace-mode decoder
substitutes U+FFFD at an invalid position and continues with the next byte
(the exact grouping of invalid bytes into replacement characters is
immaterial here); the strict-mode decoder fails.
-/

/-- A UTF-8 continuation byte. -/
def utf8Cont (b : Nat) : Bool :=
  if 0x80 ≤ b ∧ b ≤ 0xBF then true else false

/-- Constraint on the first continuation byte of a 3-byte sequence:
`0xE0` forbids overlong forms, `0xED` forbids surrogates. -/
def utf8Cont2 (b b2 : Nat) : Bool :=
  if b = 0xE0 then (if 0xA0 ≤ b2 ∧ b2 ≤ 0xBF then true else false)
  else if b = 0xED then (if 0x80 ≤ b2 ∧ b2 ≤ 0x9F then true else false)
  else utf8Cont b2

/-- Constraint on the first continuation byte of a 4-byte sequence:
`0xF0` forbids overlong forms, `0xF4` keeps the value below U+110000. -/
def utf8Cont3 (b b2 : Nat) : Bool :=
  if b = 0xF0 then (if 0x90 ≤ b2 ∧ b2 ≤ 0xBF then true else false)
  else if b = 0xF4 then (if 0x80 ≤ b2 ∧ b2 ≤ 0x8F then true else false)
  else utf8Cont b2

/-- Decode one UTF-8 scalar starting at byte `b` with the following bytes in
`rest`: the decoded character and the number of continuation bytes
consumed, or `none` if no valid sequence starts here. -/
def utf8Step (b : Nat) (rest : List Nat) : Option (Char × Nat) :=
  if b ≤ 0x7F then some (Char.ofNat b, 0)
  else if 0xC2 ≤ b ∧ b ≤ 0xDF then
    match rest with
    | b2 :: _ =>
        if utf8Cont b2 then some (Char.ofNat ((b - 0xC0) * 64 + (b2 - 0x80)), 1) else none
    | [] => none
  else if 0xE0 ≤ b ∧ b ≤ 0xEF then
    match rest with
    | b2 :: b3 :: _ =>
        if utf8Cont2 b b2 && utf8Cont b3 then
          some (Char.ofNat ((b - 0xE0) * 4096 + (b2 - 0x80) * 64 + (b3 - 0x80)), 2)
        else none
    | _ => none
  else if 0xF0 ≤ b ∧ b ≤ 0xF4 then
    match rest with
    | b2 :: b3 :: b4 :: _ =>
        if utf8Cont3 b b2 && utf8Cont b3 && utf8Cont b4 then
          some (Char.ofNat ((b - 0xF0) * 262144 + (b2 - 0x80) * 4096 +
            (b3 - 0x80) * 64 + (b4 - 0x80)), 3)
        else none
    | _ => none
  else none

/-- The replacement character U+FFFD inserted by `errors='replace'`. -/
def replChar : Char := Char.ofNat 0xFFFD

/-- Fuel-indexed replace-mode UTF-8 decoder; the fuel is instantiated with
the length of the byte list, which decoding never exhausts. -/
def decodeRF : Nat → List Nat → List Char
  | _, [] => []
  | 0, _ :: _ => []
  | fuel + 1, b :: rest =>
      match utf8Step b rest with
      | some (c, k) => c :: decodeRF fuel (rest.drop k)
      | none => replChar :: decodeRF fuel rest

/-- Fuel-indexed strict-mode UTF-8 decoder: fails on the first invalid
sequence. -/
def decodeSF : Nat → List Nat → Option (List Char)
  | _, [] => some []
  | 0, _ :: _ => none
  | fuel + 1, b :: rest =>
      match utf8Step b rest with
      | some (c, k) => (decodeSF fuel (rest.drop k)).map (fun t => c :: t)
      | none => none

/-- `out_bytes.decode('utf-8', errors='replace')` (line 305). -/
def pyDecodeReplace (bs : List Nat) : List Char :=
  decodeRF bs.length bs

/-- `out_bytes.decode('utf-8')` with strict error handling, for comparison:
`none` exactly when the byte string contains an invalid sequence. -/
def pyDecodeStrict (bs : List Nat) : Option (List Char) :=
  decodeSF bs.length bs

/-- The text the audit actually decodes and parses (lines 301-305): the
subprocess is opened with separate stdout and stderr pipes,
`communicate()` returns both, the stderr bytes are bound to `_` and
discarded, and only the stdout bytes are decoded. -/
def auditCapturedText (outBytes errBytes : List Nat) : List Char :=
  pyDecodeReplace outBytes

/-
Helper lemmas.
-/

/-- Leading slashes are all consumed by `dropWhile`. -/
theorem dropWhile_slash_replicate (k : Nat) (x : List Char) :
    List.dropWhile (fun c => c == '/') (List.replicate k '/' ++ x)
      = List.dropWhile (fun c => c == '/') x := by
  induction k with
  | zero => simp
  | succ n ih => simpa [List.replicate_succ, List.dropWhile_cons] using ih

/-- `rstrip('/')` is invariant under appending trailing slashes. -/
theorem pyRstripSlash_append_replicate (d : List Char) (k : Nat) :
    pyRstripSlash (d ++ List.replicate k '/') = pyRstripSlash d := by
  simp [pyRstripSlash, List.reverse_append, dropWhile_slash_replicate]

/-- `split(' ', 1)` finds nothing exactly on space-free lines. -/
theorem splitSp_eq_none_of_no_space (l : List Char) (h : ' ' ∉ l) :
    splitSp l = none := by
  induction l with
  | nil => rfl
  | cons c t ih =>
      have hc : (c == ' ') = false := by
        simp only [beq_eq_false_iff_ne, ne_eq]
        intro hcc
        exact h (hcc ▸ List.mem_cons_self c t)
      have ht : ' ' ∉ t := fun hm => h (List.mem_cons_of_mem c hm)
      simp [splitSp, hc, ih ht]

/-- The exclude-collecting loop is the concatenation of one
`--exclude-from` pair per existing candidate, in order. -/
theorem collectExcludes_eq_flatMap (isFile : List Char → Bool) (l : List (List Char)) :
    collectExcludes isFile l
      = (l.filter isFile).flatMap (fun p => [("--exclude-from".data), p]) := by
  induction l with
  | nil => rfl
  | cons a t ih =>
      by_cases ha : isFile a = true
      · simp [collectExcludes, List.filter_cons, ha, ih]
      · simp only [Bool.not_eq_true] at ha
        simp [collectExcludes, List.filter_cons, ha, ih]

/-- Every existing candidate contributes its pair somewhere in the
collected exclude arguments. -/
theorem collectExcludes_mem (isFile : List Char → Bool) (l : List (List Char))
    (p : List Char) (hp : p ∈ l) (hf : isFile p = true) :
    ∃ u v, collectExcludes isFile l = u ++ ("--exclude-from".data) :: p :: v := by
  induction l with
  | nil => cases hp
  | cons a t ih =>
      rcases List.mem_cons.mp hp with rfl | hmem
      · exact ⟨[], collectExcludes isFile t, by simp [collectExcludes, hf]⟩
      · obtain ⟨u, v, hu⟩ := ih hmem
        refine ⟨(if isFile a then [("--exclude-from".data), a] else []) ++ u, v, ?_⟩
        simp [collectExcludes, hu]

/-- Replace-mode and strict-mode UTF-8 decoding, fuel-indexed: they agree
whenever strict decoding succeeds, and replace-mode output contains the
replacement character whenever strict decoding fails. -/
theorem decode_fuel (fuel : Nat) : ∀ bs : List Nat, bs.length ≤ fuel →
    (∀ s, decodeSF fuel bs = some s → decodeRF fuel bs = s) ∧
    (decodeSF fuel bs = none → replChar ∈ decodeRF fuel bs) := by
  induction fuel with
  | zero =>
      intro bs hb
      have hbs : bs = [] := List.length_eq_zero.mp (Nat.le_zero.mp hb)
      subst hbs
      constructor
      · intro s hs
        simp [decodeSF] at hs
        simp [decodeRF, hs.symm]
      · intro h
        simp [decodeSF] at h
  | succ f ih =>
      intro bs hb
      cases bs with
      | nil =>
          constructor
          · intro s hs
            simp [decodeSF] at hs
            simp [decodeRF, hs.symm]
          · intro h
            simp [decodeSF] at h
      | cons b rest =>
          have hrest : rest.length ≤ f := by
            simpa using Nat.succ_le_succ_iff.mp (by simpa using hb)
          cases hstep : utf8Step b rest with
          | none =>
              constructor
              · intro s hs
                simp [decodeSF, hstep] at hs
              · intro _
                simp [decodeRF, hstep]
          | some ck =>
              obtain ⟨c, k⟩ := ck
              have hdrop : (rest.drop k).length ≤ f := by
                have : (rest.drop k).length ≤ rest.length := by
                  simp [List.length_drop]
                exact le_trans this hrest
              obtain ⟨ih1, ih2⟩ := ih (rest.drop k) hdrop
              constructor
              · intro s hs
                simp only [decodeSF, hstep] at hs
                obtain ⟨t, ht, hts⟩ := Option.map_eq_some'.mp hs
                simp [decodeRF, hstep, ih1 t ht, hts.symm]
              · intro hs
                simp only [decodeSF, hstep, Option.map_eq_none'] at hs
                simp only [decodeRF, hstep]
                exact List.mem_cons_of_mem _ (ih2 hs)

/-
Claim theorems.
-/

/-- C1 (counterexample): with two path arguments and an external tool exit
code of 23, the process exit status computed by `__main__` is 0, not 23 —
the script never propagates the tool's exit code. -/
theorem C1_exit_counterexample :
    mainExitStatus ["./rsync.py", "/a", "/b"] 23 = 0 ∧ (0 : Int) ≠ 23 := by
  decide

/-- C1 (amended): when fewer than two positional arguments are given the
process exits with status 1 after printing the usage message; with at least
two positional arguments the process always exits with status 0, regardless
of the external tool's exit code. -/
theorem C1_exit_status (argv : List String) (toolExit : Int) :
    (argv.length < 3 →
      mainExitStatus argv toolExit = 1 ∧ mainPrintsUsage argv = true) ∧
    (3 ≤ argv.length →
      mainExitStatus argv toolExit = 0 ∧ mainPrintsUsage argv = false) := by
  constructor
  · intro h
    simp [mainExitStatus, mainPrintsUsage, h]
  · intro h
    simp [mainExitStatus, mainPrintsUsage, Nat.not_lt.mpr h]

/-- C1 (witness): the amended exit-status behavior at concrete argument
vectors of length 3 and 1. -/
theorem C1_exit_status_witness :
    mainExitStatus ["./rsync.py", "/a", "/b"] 5 = 0 ∧
    mainExitStatus ["./rsync.py"] 0 = 1 :=
  ⟨((C1_exit_status ["./rsync.py", "/a", "/b"] 5).2 (by decide)).1,
    ((C1_exit_status ["./rsync.py"] 0).1 (by decide)).1⟩

/-- C2 (counterexample): when both the global `.rsyncignore` and the local
`.gitignore` exist, the exclude arguments contain `--exclude-from` entries
for both files, so they are not sourced from the first existing ignore file
alone. -/
theorem C2_first_only_counterexample :
    get_exclude_args
        (fun p => p == ("/g/.rsyncignore".data) || p == ("/s/.gitignore".data))
        ("/g".data) ("/s".data)
      = [("--exclude-from".data), ("/g/.rsyncignore".data),
         ("--exclude-from".data), ("/s/.gitignore".data)] ∧
    get_exclude_args
        (fun p => p == ("/g/.rsyncignore".data) || p == ("/s/.gitignore".data))
        ("/g".data) ("/s".data)
      ≠ [("--exclude-from".data), ("/g/.rsyncignore".data)] := by
  decide

/-- C2 (amended): the exclude arguments contain one `--exclude-from` pair
for every existing ignore file among the four candidates, in candidate
order; when none of the four exist, the hardcoded default exclude set is
used instead. -/
theorem C2_exclude_sources (isFile : List Char → Bool) (scriptDir sourcePath : List Char) :
    ((candidatePaths scriptDir sourcePath).any isFile = false →
      get_exclude_args isFile scriptDir sourcePath = defaultExcludes) ∧
    ((candidatePaths scriptDir sourcePath).any isFile = true →
      get_exclude_args isFile scriptDir sourcePath
        = ((candidatePaths scriptDir sourcePath).filter isFile).flatMap
            (fun p => [("--exclude-from".data), p])) := by
  constructor
  · intro h
    simp [get_exclude_args, h]
  · intro h
    simp [get_exclude_args, h, collectExcludes_eq_flatMap]

/-- C2 (witness): the amended exclude-argument characterization at a
concrete filesystem with two existing ignore files, and at the empty
filesystem. -/
theorem C2_exclude_sources_witness :
    get_exclude_args
        (fun p => p == ("/g/.rsyncignore".data) || p == ("/s/.gitignore".data))
        ("/g".data) ("/s".data)
      = ((candidatePaths ("/g".data) ("/s".data)).filter
          (fun p => p == ("/g/.rsyncignore".data) || p == ("/s/.gitignore".data))).flatMap
            (fun p => [("--exclude-from".data), p]) ∧
    get_exclude_args (fun _ => false) ("/g".data) ("/s".data) = defaultExcludes :=
  ⟨(C2_exclude_sources
      (fun p => p == ("/g/.rsyncignore".data) || p == ("/s/.gitignore".data))
      ("/g".data) ("/s".data)).2 (by decide),
    (C2_exclude_sources (fun _ => false) ("/g".data) ("/s".data)).1 (by decide)⟩

/-- C3: every existing candidate ignore file — in particular both a global
and a local one when both exist — contributes its own `--exclude-from`
entry to the exclude arguments, and when no candidate exists the hardcoded
default exclude set is used. -/
theorem C3_both_ignore_files (isFile : List Char → Bool) (scriptDir sourcePath : List Char) :
    (∀ p, p ∈ candidatePaths scriptDir sourcePath → isFile p = true →
      ∃ u v, get_exclude_args isFile scriptDir sourcePath
        = u ++ ("--exclude-from".data) :: p :: v) ∧
    ((∀ p, p ∈ candidatePaths scriptDir sourcePath → isFile p = false) →
      get_exclude_args isFile scriptDir sourcePath = defaultExcludes) := by
  constructor
  · intro p hp hf
    have hany : (candidatePaths scriptDir sourcePath).any isFile = true :=
      List.any_eq_true.mpr ⟨p, hp, hf⟩
    rw [get_exclude_args, if_pos hany]
    exact collectExcludes_mem isFile _ p hp hf
  · intro h
    have hany : (candidatePaths scriptDir sourcePath).any isFile = false := by
      simp only [List.any_eq_false]
      intro p hp
      simp [h p hp]
    simp [get_exclude_args, hany]

/-- C3 (witness): with the global `.rsyncignore` and the local `.gitignore`
both present, each appears as its own `--exclude-from` entry; with no
ignore file present anywhere, the default exclude set is produced. -/
theorem C3_both_ignore_files_witness :
    (∃ u v, get_exclude_args
        (fun p => p == ("/g/.rsyncignore".data) || p == ("/s/.gitignore".data))
        ("/g".data) ("/s".data)
      = u ++ ("--exclude-from".data) :: ("/g/.rsyncignore".data) :: v) ∧
    (∃ u v, get_exclude_args
        (fun p => p == ("/g/.rsyncignore".data) || p == ("/s/.gitignore".data))
        ("/g".data) ("/s".data)
      = u ++ ("--exclude-from".data) :: ("/s/.gitignore".data) :: v) ∧
    get_exclude_args (fun _ => false) ("/g".data) ("/s".data) = defaultExcludes :=
  ⟨(C3_both_ignore_files
      (fun p => p == ("/g/.rsyncignore".data) || p == ("/s/.gitignore".data))
      ("/g".data) ("/s".data)).1 ("/g/.rsyncignore".data) (by decide) (by decide),
    (C3_both_ignore_files
      (fun p => p == ("/g/.rsyncignore".data) || p == ("/s/.gitignore".data))
      ("/g".data) ("/s".data)).1 ("/s/.gitignore".data) (by decide) (by decide),
    (C3_both_ignore_files (fun _ => false) ("/g".data) ("/s".data)).2
      (by intro p hp; rfl)⟩

/-- C4: when the source path has no trailing separator, the audit's
destination comparison root is the destination joined with the source's
final path component, normalized to a single trailing separator; when the
source has a trailing separator, the root is the destination with exactly
one trailing separator, invariant under any number of extra trailing
separators on the destination input. -/
theorem C4_dest_root (source dest : List Char) :
    (endsWithSlash source = false →
      auditDestClean source dest
        = pyRstripSlash (pyJoin dest (pyBasename source)) ++ ['/']) ∧
    (endsWithSlash source = true →
      auditDestClean source dest = pyRstripSlash dest ++ ['/'] ∧
      ∀ k : Nat, auditDestClean source (dest ++ List.replicate k '/')
        = pyRstripSlash dest ++ ['/']) := by
  constructor
  · intro h
    simp [auditDestClean, h]
  · intro h
    have hd : ∀ d2 : List Char, auditDestClean source d2 = pyRstripSlash d2 ++ ['/'] := by
      intro d2
      simp [auditDestClean, h]
    exact ⟨hd dest, fun k => by rw [hd, pyRstripSlash_append_replicate]⟩

/-- C4 (witness): both comparison-root shapes at concrete paths, including
a destination with doubled trailing separators. -/
theorem C4_dest_root_witness :
    auditDestClean ("/a/b".data) ("/d".data)
      = pyRstripSlash (pyJoin ("/d".data) (pyBasename ("/a/b".data))) ++ ['/'] ∧
    auditDestClean ("/a/b/".data) ("/d//".data) = pyRstripSlash ("/d//".data) ++ ['/'] :=
  ⟨(C4_dest_root ("/a/b".data) ("/d".data)).1 (by decide),
    ((C4_dest_root ("/a/b/".data) ("/d//".data)).2 (by decide)).1⟩

/-- C5 (counterexample): the non-empty line `sending incremental file list`
is assigned none of the three claimed transfer categories — the loop skips
it as a header instead of treating it as a filename update. -/
theorem C5_total_counterexample :
    transferClassify ("sending incremental file list".data) ≠ TClass.progress ∧
    transferClassify ("sending incremental file list".data) ≠ TClass.error ∧
    transferClassify ("sending incremental file list".data) ≠ TClass.filename := by
  decide

/-- C5 (amended): for every non-empty line, the transfer classifier assigns
exactly one of the four categories {progress, error, skipped-header,
filename-update} and the audit classifier exactly one of {missing, extra,
ignored}; both chains are total and exclusive, characterized by the raw
conditions with earlier branches taking precedence. -/
theorem C5_classification_total_exclusive (l : List Char) (hne : l ≠ []) :
    ((transferClassify l = TClass.progress ↔ isProgressCond l = true) ∧
     (transferClassify l = TClass.error ↔
        isProgressCond l = false ∧ isErrorCond l = true) ∧
     (transferClassify l = TClass.header ↔
        isProgressCond l = false ∧ isErrorCond l = false ∧ isHeaderCond l = true) ∧
     (transferClassify l = TClass.filename ↔
        isProgressCond l = false ∧ isErrorCond l = false ∧ isHeaderCond l = false)) ∧
    ((auditClassify l = AClass.extra ↔
        (splitSp l).isSome = true ∧ isDeletingCond l = true) ∧
     (auditClassify l = AClass.missing ↔
        ∃ code fname, splitSp l = some (code, fname) ∧
          isDeletingCond l = false ∧ isCreationCode code = true) ∧
     (auditClassify l = AClass.ignored ↔
        (splitSp l = none ∨
          ∃ code fname, splitSp l = some (code, fname) ∧
            isDeletingCond l = false ∧ isCreationCode code = false))) := by
  constructor
  · cases hP : isProgressCond l <;> cases hE : isErrorCond l <;>
      cases hH : isHeaderCond l <;> simp [transferClassify, hP, hE, hH]
  · rcases hS : splitSp l with _ | ⟨code, fname⟩
    · simp [auditClassify, auditLineStep, hS]
    · cases hD : isDeletingCond l <;> cases hC : isCreationCode code <;>
        simp [auditClassify, auditLineStep, hS, hD, hC]

/-- C5 (witness): the transfer-side characterization instantiated at the
concrete line `sample.txt`. -/
theorem C5_classification_witness :
    transferClassify ("sample.txt".data) = TClass.progress ↔
      isProgressCond ("sample.txt".data) = true :=
  (C5_classification_total_exclusive ("sample.txt".data) (by decide)).1.1

/-- C6: on an itemized output with one deletion-marker line for `old.txt`
and one creation-marker line for `new.txt`, the audit computes exactly
missing = [new.txt] and extras = [old.txt], names stripped of the marker
prefixes. -/
theorem C6_two_line_audit :
    auditParse [("*deleting   old.txt".data), (">f+++++++++ new.txt".data)]
      = ([("new.txt".data)], [("old.txt".data)]) := by
  decide

/-- C7: when every output line is classified as ignored (no deletion-marker
and no creation-marker lines), the missing and extra lists are both empty
and the audit takes the perfect-match branch instead of printing the
report. -/
theorem C7_perfect_match (lines : List (List Char))
    (h : ∀ l ∈ lines, auditClassify l = AClass.ignored) :
    auditParse lines = ([], []) ∧ auditOutcome lines = AuditOutcome.perfectMatch := by
  have hp : auditParse lines = ([], []) := by
    induction lines with
    | nil => rfl
    | cons a t ih =>
        have ha := h a (List.mem_cons_self a t)
        have hstep : auditLineStep a = none := by
          rcases hs : auditLineStep a with _ | v
          · rfl
          · rcases v with f | f <;> simp [auditClassify, hs] at ha
        have ht : ∀ l ∈ t, auditClassify l = AClass.ignored := fun l hl =>
          h l (List.mem_cons_of_mem a hl)
        simp [auditParse, hstep, ih ht]
  exact ⟨hp, by simp [auditOutcome, hp]⟩

/-- C7 (witness): an itemized output consisting of one metadata-only
difference line yields empty lists and the perfect-match outcome. -/
theorem C7_perfect_match_witness :
    auditParse [(".d..t...... x".data)] = ([], []) ∧
    auditOutcome [(".d..t...... x".data)] = AuditOutcome.perfectMatch :=
  C7_perfect_match [(".d..t...... x".data)] (by decide)

/-- C8: each audit report list shows its first 15 entries; the
`... and N more.` suffix is produced exactly when the list is longer than
15, and for a 20-entry list the suffix line is `    ... and 5 more.`. -/
theorem C8_truncation (m : List (List Char)) :
    (truncate15 m).1 = m.take 15 ∧
    ((truncate15 m).2 = none ↔ m.length ≤ 15) ∧
    (m.length = 20 →
      (truncate15 m).2.map renderMoreLine = some (("    ... and 5 more.".data))) := by
  refine ⟨rfl, ?_, ?_⟩
  · by_cases h : 15 < m.length <;> simp [truncate15, h] <;> omega
  · intro h20
    have h15 : 15 < m.length := by omega
    simp [truncate15, h15, h20]
    decide

/-- C8 (witness): the truncation suffix at a concrete 20-entry missing
list. -/
theorem C8_truncation_witness :
    (truncate15 (List.replicate 20 ['x'])).2.map renderMoreLine
      = some (("    ... and 5 more.".data)) :=
  (C8_truncation (List.replicate 20 ['x'])).2.2 (by decide)

/-- C9 (counterexample): the audit does not decode the combined
stdout/stderr byte streams — with empty stdout and the byte `a` on stderr,
the decoded audit text is empty rather than the decoding of the combined
bytes, because stderr is piped separately and discarded. -/
theorem C9_combined_counterexample :
    auditCapturedText [] [97] = [] ∧
    pyDecodeReplace ([] ++ [97]) = ['a'] ∧
    ([] : List Char) ≠ ['a'] := by
  decide

/-- C9 (amended): the audit decodes exactly the captured stdout bytes
(stderr is discarded), and the replace-mode decoding never fails: it agrees
with strict UTF-8 decoding on valid input, and on any byte string that
strict decoding rejects it still produces output, with the offending
sequence replaced by the replacement character. -/
theorem C9_decode_replace (outBytes errBytes : List Nat) :
    auditCapturedText outBytes errBytes = pyDecodeReplace outBytes ∧
    (∀ s, pyDecodeStrict outBytes = some s → pyDecodeReplace outBytes = s) ∧
    (pyDecodeStrict outBytes = none → replChar ∈ pyDecodeReplace outBytes) := by
  obtain ⟨h1, h2⟩ := decode_fuel outBytes.length outBytes (le_refl _)
  exact ⟨rfl, h1, h2⟩

/-- C9 (witness): on the invalid byte string `0xFF` (with one stderr byte
present), strict decoding fails while the audit's replace-mode decoding
yields the replacement character. -/
theorem C9_decode_replace_witness :
    pyDecodeStrict [255] = none ∧ replChar ∈ pyDecodeReplace [255] :=
  ⟨by decide, (C9_decode_replace [255] [65]).2.2 (by decide)⟩

/-- C10: a non-empty audit line containing no space character — even one
beginning with the deletion-marker prefix — is ignored entirely: it is
added to neither the missing nor the extra list. -/
theorem C10_no_space_ignored (l : List Char) (rest : List (List Char))
    (hne : l ≠ []) (hsp : ' ' ∉ l) :
    auditParse (l :: rest) = auditParse rest ∧ auditClassify l = AClass.ignored := by
  have h1 : splitSp l = none := splitSp_eq_none_of_no_space l hsp
  have h2 : auditLineStep l = none := by simp [auditLineStep, h1]
  exact ⟨by simp [auditParse, h2], by simp [auditClassify, h2]⟩

/-- C10 (witness): the space-free line `*deleting` is ignored by the audit
even though it begins with the deletion-marker prefix. -/
theorem C10_no_space_ignored_witness :
    auditParse [("*deleting".data)] = auditParse [] ∧
    auditClassify ("*deleting".data) = AClass.ignored :=
  C10_no_space_ignored ("*deleting".data) [] (by decide) (by decide)
